import Mathlib

/-!
Verification development for the in-memory analytics engine of
`datakengineerLAB_v1.py` (table registry, row/column filter pipeline,
descriptive statistics, weighted scoring, join engine, query executor).

Pandas/numpy float arithmetic is idealised as exact arithmetic over `ℚ`
(and `ℝ` where a square root occurs).  Library routines that consume the
global random state are made explicit by an `entropy` parameter.
-/

/-- A table cell: the engine's dynamically typed values, modelled by the
closed tagged type used throughout the program (numbers, text, missing).
`null` models `NaN`/`None`. -/
inductive Value where
  | num (q : ℚ)
  | str (s : String)
  | null
deriving DecidableEq

abbrev Row := List Value

/-- A pandas DataFrame: named columns over equal-length rows. -/
structure Table where
  header : List String
  rows : List Row
deriving DecidableEq

/-- The table registry of `DataManager`: insertion-ordered name→table map
plus the active-table pointer. -/
structure DataManager where
  tables : List (String × Table)
  active : Option String
deriving DecidableEq

/-- Python dict assignment `self.tables[name] = df`: overwrite in place if
the key exists, else append. -/
def updateAssoc : List (String × Table) → String → Table → List (String × Table)
  | [], n, t => [(n, t)]
  | (k, v) :: rest, n, t =>
      if k = n then (n, t) :: rest else (k, v) :: updateAssoc rest n t

/-- Model of `DataManager.add_table` (lines 118-120): insert/overwrite and set active. -/
def DataManager.addTable (dm : DataManager) (name : String) (df : Table) : DataManager :=
  ⟨updateAssoc dm.tables name df, some name⟩

/-- Model of `DataManager.get_active_df` (lines 113-116): `if self.active_table and
self.active_table in self.tables` (an empty-string name is falsy in Python). -/
def DataManager.getActiveDf (dm : DataManager) : Option Table :=
  match dm.active with
  | some n => if n = "" then none else dm.tables.lookup n
  | none => none

/-- Python `widget.get() or default`: the empty string is falsy. -/
def orDefault (d s : String) : String := if s = "" then d else s

/-- Strip surrounding whitespace (Python `str.strip()` / the stripping
performed by `int()` and `float()`). -/
def trimChars (cs : List Char) : List Char :=
  ((cs.dropWhile Char.isWhitespace).reverse.dropWhile Char.isWhitespace).reverse

def pyStrip (s : String) : String := ⟨trimChars s.toList⟩

def allDigits (cs : List Char) : Bool := cs.all (fun c => c.isDigit)

def digitsVal (cs : List Char) : ℕ := cs.foldl (fun a c => a * 10 + (c.toNat - 48)) 0

def digitsToNat (cs : List Char) : Option ℕ :=
  if cs ≠ [] ∧ allDigits cs then some (digitsVal cs) else none

/-- Model of Python `int(s)` on the entry text: surrounding whitespace is
stripped, an optional sign followed by digits parses, anything else raises
`ValueError` (modelled by `none`). -/
def pyInt (s : String) : Option Int :=
  match trimChars s.toList with
  | '-' :: rest => (digitsToNat rest).map (fun n => -(n : ℤ))
  | '+' :: rest => (digitsToNat rest).map (fun n => (n : ℤ))
  | cs => (digitsToNat cs).map (fun n => (n : ℤ))

/-- Split a character list at every `'.'`. -/
def splitDot : List Char → List (List Char)
  | [] => [[]]
  | c :: rest =>
    if c = '.' then [] :: splitDot rest
    else
      match splitDot rest with
      | [] => [[c]]
      | g :: gs => (c :: g) :: gs

/-- Model of Python `float(s)` restricted to plain decimal literals
(optional sign, digits, optional fractional part); other accepted Python
forms (exponents, `inf`, `nan`) are not exercised by the program's claims. -/
def pyFloat (s : String) : Option ℚ :=
  let t := trimChars s.toList
  let sign : ℚ := if t.head? = some '-' then -1 else 1
  let body := if t.head? = some '-' ∨ t.head? = some '+' then t.tail else t
  match splitDot body with
  | [i] => if i ≠ [] ∧ allDigits i then some (sign * digitsVal i) else none
  | [i, f] =>
      if (i ≠ [] ∨ f ≠ []) ∧ allDigits i ∧ allDigits f then
        some (sign * ((digitsVal i : ℚ) + (digitsVal f : ℚ) / (10 : ℚ) ^ f.length))
      else none
  | _ => none

/-- Model of Python `str()` on a cell (the textual form used by
`astype(str)` and the ID rows).  A rational with denominator 1 renders as
its integer; `NaN` renders as `"nan"`. -/
def pyStr : Value → String
  | .str s => s
  | .num q => if q.den = 1 then toString q.num else toString q
  | .null => "nan"

/-- The row-filter UI state consumed by `_apply_row_filter`: the mode
string and the raw entry texts (`""` = widget empty/absent), plus the
`sample_random` BooleanVar. -/
structure RowFilterState where
  mode : String
  index_from : String
  index_to : String
  value_col : String
  value_op : String
  value_val : String
  sample_n : String
  sample_random : Bool
deriving DecidableEq

def allFilter : RowFilterState := ⟨"all", "", "", "", "", "", "", true⟩

def indexFilter (f t : String) : RowFilterState := ⟨"index", f, t, "", "", "", "", true⟩

def valueFilter (c o v : String) : RowFilterState := ⟨"value", "", "", c, o, v, "", true⟩

def sampleFilter (n : String) (r : Bool) : RowFilterState :=
  ⟨"sample", "", "", "", "", "", n, r⟩

/-- Model of `DataFrame.sample(n=n, random_state=state)`: a draw of `n`
distinct rows.  With a fixed `random_state` the library draw is a pure
function of `(state, n, rows)`; the concrete selection performed by
numpy's generator is modelled by a simple deterministic choice of `n`
distinct indices determined by `state`. -/
def sampleDraw (state : ℕ) (n : ℕ) (rows : List Row) : List Row :=
  (rows.rotate state).take n

/-- Python slice-index normalisation for `df.iloc[a:b]` (step 1):
negative indices count from the end, and both bounds are clamped. -/
def sliceIdx (n : ℕ) (i : ℤ) : ℕ :=
  if i < 0 then ((n : ℤ) + i).toNat else min i.toNat n

/-- Model of `df.iloc[a:b]` row selection (Python slice semantics; never raises). -/
def pySlice (a b : ℤ) (rows : List Row) : List Row :=
  (rows.drop (sliceIdx rows.length a)).take (sliceIdx rows.length b - sliceIdx rows.length a)

/-- The comparison literal after the numeric-parse step of the `value`
mode: a float when the column was numeric and `float(val)` succeeded,
otherwise the raw text. -/
inductive Lit where
  | qv (q : ℚ)
  | sv (s : String)

def isNumCell : Value → Bool
  | .num _ => true
  | .null => true
  | .str _ => false

def colIndex (t : Table) (c : String) : Option ℕ :=
  t.header.findIdx? (fun x => x == c)

def columnAt (t : Table) (j : ℕ) : List Value :=
  t.rows.map (fun r => r.getD j .null)

def columnCells (t : Table) (c : String) : List Value :=
  match colIndex t c with
  | some j => columnAt t j
  | none => []

/-- Model of `pd.api.types.is_numeric_dtype`: with inferred dtypes a column is
numeric exactly when every cell is a number or missing. -/
def isNumericIdx (t : Table) (j : ℕ) : Bool :=
  (columnAt t j).all isNumCell

def isNumericColName (t : Table) (c : String) : Bool :=
  match colIndex t c with
  | some j => isNumericIdx t j
  | none => false

def lowerChars (cs : List Char) : List Char := cs.map Char.toLower

/-- Substring test on character lists. -/
def containsSub (hay pat : List Char) : Bool :=
  hay.tails.any (fun t => pat.isPrefixOf t)

def cmpEq (lit : Lit) (v : Value) : Bool :=
  match lit, v with
  | .qv q, .num x => x == q
  | .sv s, .str t => t == s
  | _, _ => false

def cmpOrdNum (op : String) (x q : ℚ) : Bool :=
  if op == ">" then q < x
  else if op == "<" then x < q
  else if op == ">=" then q ≤ x
  else x ≤ q

def cmpOrdStr (op : String) (t s : String) : Bool :=
  if op == ">" then decide (s < t)
  else if op == "<" then decide (t < s)
  else if op == ">=" then !(decide (t < s))
  else !(decide (s < t))

/-- One elementwise step of the pandas mask builders in the `value` mode
(lines 801-808).  `none` models a raised exception (e.g. an ordered
comparison between a number and text, or `str.contains` with a float
pattern); `NaN` compares unequal/not-less like pandas. -/
def cmpCell (op : String) (lit : Lit) (v : Value) : Option Bool :=
  if op == "==" then some (cmpEq lit v)
  else if op == "!=" then some (!(cmpEq lit v))
  else if op == ">" ∨ op == "<" ∨ op == ">=" ∨ op == "<=" then
    match lit, v with
    | .qv q, .num x => some (cmpOrdNum op x q)
    | .qv _, .null => some false
    | .qv _, .str _ => none
    | .sv s, .str t => some (cmpOrdStr op t s)
    | .sv _, _ => none
  else if op == "contains" then
    match lit with
    | .qv _ => none
    | .sv s => some (containsSub (lowerChars (pyStr v).toList) (lowerChars s.toList))
  else none

/-- A whole mask computation: any raised elementwise exception aborts. -/
def collectMask : List (Option Bool) → Option (List Bool)
  | [] => some []
  | none :: _ => none
  | some b :: rest => (collectMask rest).map (fun m => b :: m)

def applyMask (rows : List Row) (mask : List Bool) : List Row :=
  (rows.zip mask).filterMap (fun p => if p.2 then some p.1 else none)

/-- Model of `_apply_row_filter` (lines 774-826).  `none` models the
logged-error `return None` paths; `entropy` models the numpy global
random state consumed by an unseeded draw.  An empty frame is returned
unchanged before any mode dispatch or validation. -/
def applyRowFilter (st : RowFilterState) (entropy : ℕ) (df : Table) : Option Table :=
  if df.rows = [] then some df
  else if st.mode = "all" then some df
  else if st.mode = "index" then
    match pyInt (orDefault "0" st.index_from),
          pyInt (orDefault (toString df.rows.length) st.index_to) with
    | some a, some b => some ⟨df.header, pySlice a b df.rows⟩
    | _, _ => none
  else if st.mode = "value" then
    let col := st.value_col
    let op := orDefault "==" st.value_op
    let val := st.value_val
    if col = "" ∨ val = "" then some df
    else
      match colIndex df col with
      | none => none
      | some j =>
        let lit := if isNumericIdx df j then
            (match pyFloat val with
             | some q => Lit.qv q
             | none => Lit.sv val)
          else Lit.sv val
        if op ∈ ["==", "!=", ">", "<", ">=", "<=", "contains"] then
          match collectMask (df.rows.map (fun r => cmpCell op lit (r.getD j .null))) with
          | some mask => some ⟨df.header, applyMask df.rows mask⟩
          | none => none
        else some df
  else if st.mode = "sample" then
    match pyInt (orDefault "100" st.sample_n) with
    | none => none
    | some n =>
      if (df.rows.length : ℤ) ≤ n then some df
      else if n < 0 then none
      else some ⟨df.header,
        sampleDraw (if st.sample_random then 42 else entropy) n.toNat df.rows⟩
  else some df

/-- Model of `df[names]` column projection, keeping the order of `names`. -/
def project (names : List String) (t : Table) : Table :=
  ⟨names, t.rows.map (fun r => names.map (fun c =>
     match colIndex t c with
     | some j => r.getD j .null
     | none => .null))⟩

/-- Model of `df.dropna()`: whole-row elimination of rows containing any missing cell. -/
def dropna (t : Table) : Table :=
  ⟨t.header, t.rows.filter (fun r => r.all (fun v => v != Value.null))⟩

/-- Model of `df.select_dtypes(include=[np.number])`, preserving column order. -/
def selectNumeric (t : Table) : Table :=
  project (t.header.filter (fun c => isNumericColName t c)) t

/-- The checked entries of a checkbox dictionary, in insertion order. -/
def checkedCols (colVars : List (String × Bool)) : List String :=
  (colVars.filter (fun p => p.2)).map (fun p => p.1)

/-- Model of `_get_filtered_df_for_stats` (lines 841-856): row filter on
the full active table, then projection onto the selected columns, then
`dropna`.  An empty checkbox dictionary falls back to all numeric
columns; an all-unchecked selection is the EmptySelection failure. -/
def getFilteredDfForStats (dm : DataManager) (st : RowFilterState) (entropy : ℕ)
    (colVars : List (String × Bool)) : Option Table :=
  match dm.getActiveDf with
  | none => none
  | some df =>
    match applyRowFilter st entropy df with
    | none => none
    | some dff =>
      if dff.rows = [] then none
      else if colVars = [] then some (dropna (selectNumeric dff))
      else
        let selected := checkedCols colVars
        if selected = [] then none
        else
          let available := selected.filter (fun c => dff.header.contains c)
          if available = [] then none
          else some (dropna (project available dff))

/-- Model of `Series.mean`. -/
def qmean (c : List ℚ) : ℚ := c.sum / c.length

def qsorted (c : List ℚ) : List ℚ := List.insertionSort (· ≤ ·) c

/-- Model of `Series.median`: middle of the sorted values, or the average of the
two middle values for an even count. -/
def qmedian (c : List ℚ) : ℚ :=
  let s := qsorted c
  let n := s.length
  if n % 2 = 1 then s.getD (n / 2) 0
  else (s.getD (n / 2 - 1) 0 + s.getD (n / 2) 0) / 2

def qminL (c : List ℚ) : ℚ := c.foldl min (c.headD 0)

def qmaxL (c : List ℚ) : ℚ := c.foldl max (c.headD 0)

/-- Biased `k`-th central sample moment `m_k` (denominator `N`). -/
def centralMoment (k : ℕ) (c : List ℚ) : ℚ :=
  (c.map (fun x => (x - qmean c) ^ k)).sum / c.length

/-- Squared `Series.std()`: sample variance with `N−1` denominator. -/
def qvarSample (c : List ℚ) : ℚ :=
  (c.map (fun x => (x - qmean c) ^ 2)).sum / ((c.length : ℚ) - 1)

/-- Model of `Series.std()` (ddof=1). -/
noncomputable def stdDevR (c : List ℚ) : ℝ := Real.sqrt ((qvarSample c : ℚ) : ℝ)

/-- Model of `scipy.stats.skew` with its default `bias=True`: `m₃ / m₂^{3/2}`. -/
noncomputable def skewR (c : List ℚ) : ℝ :=
  ((centralMoment 3 c : ℚ) : ℝ) / Real.sqrt ((centralMoment 2 c : ℚ) : ℝ) ^ 3

/-- Model of `scipy.stats.kurtosis` with its defaults `fisher=True, bias=True`:
the biased excess kurtosis `g₂ = m₄/m₂² − 3` (no bias correction). -/
def kurtQ (c : List ℚ) : ℚ := centralMoment 4 c / (centralMoment 2 c) ^ 2 - 3

/-- Modelled from the spec: the "bias-corrected (Fisher) excess kurtosis"
named by the specification — the standard bias-corrected estimator
`G₂ = ((n+1)·g₂ + 6)·(n−1)/((n−2)·(n−3))` (what `scipy.stats.kurtosis`
computes with `bias=False`), stated only for comparison with the biased
`kurtQ` that the code actually computes. -/
def kurtBiasCorrected (c : List ℚ) : ℚ :=
  ((c.length + 1) * kurtQ c + 6) * ((c.length : ℚ) - 1) /
    (((c.length : ℚ) - 2) * ((c.length : ℚ) - 3))

/-- A cell of a statistics result table: a float or a stringified value. -/
inductive SCell where
  | num (x : ℝ)
  | str (s : String)

/-- The seven statistics columns of `run_desc_stats` (lines 914-918). -/
def statsHeader : List String :=
  ["Média", "Mediana", "Desvio", "Mín", "Máx", "Assimetria", "Curtose"]

/-- The numeric cells of a column, as rationals (the filtered frame fed to
the statistics has no missing cells left). -/
def colNums (t : Table) (c : String) : List ℚ :=
  (columnCells t c).filterMap (fun v =>
    match v with
    | .num q => some q
    | _ => none)

/-- The per-column row of the statistics DataFrame (lines 914-918), in
the column order `statsHeader`. -/
noncomputable def descCells (c : List ℚ) : List SCell :=
  [.num (qmean c), .num (qmedian c), .num (stdDevR c), .num (qminL c),
   .num (qmaxL c), .num (skewR c), .num (kurtQ c)]

/-- Model of `Series.nunique()`: distinct non-null values. -/
def nuniqueN (l : List Value) : ℕ :=
  ((l.filter (fun v => v != Value.null)).dedup).length

def firstStr (l : List Value) : String :=
  match l.head? with
  | some v => pyStr v
  | none => "N/A"

def lastStr (l : List Value) : String :=
  match l.getLast? with
  | some v => pyStr v
  | none => "N/A"

/-- Model of `_get_id_column` (lines 858-862). -/
def getIdColumn (s : String) : Option String :=
  let t := pyStrip s
  if t = "" ∨ t = "(nenhum)" then none else some t

/-- A statistics result: row label → the row's cells. -/
abbrev StatsTable := List (String × List SCell)

/-- Model of `run_desc_stats` (lines 903-927): the seven statistics per
selected column, and — when an identifier column is designated and exists
in the active table — the three ID rows, computed from the FULL active
table's identifier column (`self.dm.get_active_df()[id_col]`, line 920),
each value replicated across all statistics columns. -/
noncomputable def runDescStats (dm : DataManager) (st : RowFilterState) (entropy : ℕ)
    (colVars : List (String × Bool)) (idColVar : String) : Option StatsTable :=
  match getFilteredDfForStats dm st entropy colVars with
  | none => none
  | some df =>
    if df.rows = [] then none
    else
      let base : StatsTable := df.header.map (fun c => (c, descCells (colNums df c)))
      match getIdColumn idColVar, dm.getActiveDf with
      | some idc, some adf =>
        if idc ∈ adf.header then
          let idData := columnCells adf idc
          some (base ++
            [("ID_Únicos", List.replicate statsHeader.length (SCell.num (nuniqueN idData))),
             ("ID_Primeiro", List.replicate statsHeader.length (SCell.str (firstStr idData))),
             ("ID_Último", List.replicate statsHeader.length (SCell.str (lastStr idData)))])
        else some base
      | _, _ => some base

/-- Model of `fillna(0)` on a cell of a numeric column. -/
def fillna0 (v : Value) : ℚ :=
  match v with
  | .num q => q
  | _ => 0

/-- sklearn's `_handle_zeros_in_scale`: a zero range is replaced by 1. -/
def handleZeros (r : ℚ) : ℚ := if r = 0 then 1 else r

/-- Model of `MinMaxScaler((0, 100)).fit_transform` on one column. -/
def minmaxRescale (c : List ℚ) : List ℚ :=
  c.map (fun x => (x - qminL c) * 100 / handleZeros (qmaxL c - qminL c))

/-- Model of `np.dot(scaled_data, weights)` with the equal weights
`np.ones(k)/k` (lines 519-520): per row, the sum over the `k` rescaled
columns divided by `k`. -/
def computeScores (cols : List (List ℚ)) (n : ℕ) : List ℚ :=
  (List.range n).map (fun i => (cols.map (fun c => c.getD i 0)).sum / cols.length)

/-- Round half to even at integer precision (numpy rounding). -/
def rndHalfEven (x : ℚ) : ℤ :=
  if x - ⌊x⌋ < 1 / 2 then ⌊x⌋
  else if 1 / 2 < x - ⌊x⌋ then ⌊x⌋ + 1
  else if Even ⌊x⌋ then ⌊x⌋ else ⌊x⌋ + 1

/-- numpy `.round(2)`. -/
def round2 (x : ℚ) : ℚ := (rndHalfEven (x * 100) : ℚ) / 100

/-- The sort key of `sort_values(by="Score_Rating")`: the appended last
cell of each result row. -/
def scoreOf (r : Row) : ℚ :=
  match r.getLast? with
  | some (.num q) => q
  | _ => 0

def rowGe (a b : Row) : Prop := scoreOf b ≤ scoreOf a

instance : DecidableRel rowGe := fun a b => inferInstanceAs (Decidable (scoreOf b ≤ scoreOf a))

/-- Model of `sort_values(by="Score_Rating", ascending=False)`: some descending
order of the rows (the library's unstable quicksort is modelled by
insertion sort; only sortedness matters). -/
def sortRowsDesc (rows : List Row) : List Row := List.insertionSort rowGe rows

/-- Model of `subset = df[selected_cols].copy().fillna(0)` followed by the scaler,
the dot product with the equal weights, the 2-decimal rounding and the
appending of the `Score_Rating` column (lines 516-522), row by row. -/
def scoredRows (df : Table) (selected : List String) : List Row :=
  (df.rows.zip ((computeScores ((selected.map (fun c => (columnCells df c).map fillna0)).map
      minmaxRescale) df.rows.length).map (fun s => Value.num (round2 s)))).map
    (fun p => p.1 ++ [p.2])

/-- The scored result table: all original columns plus `Score_Rating`,
sorted descending by score (line 523). -/
def ratingTable (df : Table) (selected : List String) : Table :=
  ⟨df.header ++ ["Score_Rating"], sortRowsDesc (scoredRows df selected)⟩

/-- Model of the `task` closure of `calculate_rating_thread`
(lines 505-530).  `none` models the early-return and caught-exception
paths (no table selected, empty selection, missing/non-numeric selected
column, empty frame — the scaler raises there).  The `_ws` argument is
the weight-scale control, which the computation never reads.  On success
the result is the generated name, the scored table, and the registry
after `add_table`. -/
def calculateRating (dm : DataManager) (_ws : ℚ) (ratingVars : List (String × Bool))
    (ts : String) : Option (String × Table × DataManager) :=
  match dm.getActiveDf with
  | none => none
  | some df =>
    if checkedCols ratingVars = [] then none
    else if !((checkedCols ratingVars).all (fun c => df.header.contains c)) then none
    else if !((checkedCols ratingVars).all (fun c => isNumericColName df c)) then none
    else if df.rows = [] then none
    else
      some ("Rating_" ++ ts, ratingTable df (checkedCols ratingVars),
        dm.addTable ("Rating_" ++ ts) (ratingTable df (checkedCols ratingVars)))

def nullRow (n : ℕ) : Row := List.replicate n Value.null

/-- pandas suffixing of overlapping column names in a merge. -/
def mergeHeaders (h1 h2 : List String) : List String :=
  h1.map (fun c => if h2.contains c then c ++ "_x" else c) ++
  h2.map (fun c => if h1.contains c then c ++ "_y" else c)

def keyCell (t : Table) (k : String) (r : Row) : Value :=
  match colIndex t k with
  | some j => r.getD j .null
  | none => .null

def innerRows (df1 df2 : Table) (k1 k2 : String) : List Row :=
  df1.rows.flatMap (fun r1 =>
    (df2.rows.filter (fun r2 => keyCell df1 k1 r1 == keyCell df2 k2 r2)).map
      (fun r2 => r1 ++ r2))

def leftJoinRows (df1 df2 : Table) (k1 k2 : String) : List Row :=
  df1.rows.flatMap (fun r1 =>
    let ms := df2.rows.filter (fun r2 => keyCell df1 k1 r1 == keyCell df2 k2 r2)
    if ms.isEmpty then [r1 ++ nullRow df2.header.length] else ms.map (fun r2 => r1 ++ r2))

def rightJoinRows (df1 df2 : Table) (k1 k2 : String) : List Row :=
  df2.rows.flatMap (fun r2 =>
    let ms := df1.rows.filter (fun r1 => keyCell df1 k1 r1 == keyCell df2 k2 r2)
    if ms.isEmpty then [nullRow df1.header.length ++ r2] else ms.map (fun r1 => r1 ++ r2))

def outerJoinRows (df1 df2 : Table) (k1 k2 : String) : List Row :=
  leftJoinRows df1 df2 k1 k2 ++
  (df2.rows.filter (fun r2 =>
      (df1.rows.filter (fun r1 => keyCell df1 k1 r1 == keyCell df2 k2 r2)).isEmpty)).map
    (fun r2 => nullRow df1.header.length ++ r2)

/-- Model of `pd.merge(df1, df2, left_on=k1, right_on=k2, how=how)`: raises
`KeyError` when either key column is absent (modelled by `.error`),
otherwise standard relational join semantics. -/
def pdMerge (df1 df2 : Table) (k1 k2 how : String) : Except String Table :=
  if !(df1.header.contains k1) then .error ("KeyError: " ++ k1)
  else if !(df2.header.contains k2) then .error ("KeyError: " ++ k2)
  else
    let hdr := mergeHeaders df1.header df2.header
    if how = "inner" then .ok ⟨hdr, innerRows df1 df2 k1 k2⟩
    else if how = "left" then .ok ⟨hdr, leftJoinRows df1 df2 k1 k2⟩
    else if how = "right" then .ok ⟨hdr, rightJoinRows df1 df2 k1 k2⟩
    else if how = "outer" then .ok ⟨hdr, outerJoinRows df1 df2 k1 k2⟩
    else .error ("invalid how: " ++ how)

/-- Model of `run_join` (lines 1051-1067): every failure path (missing
table selection, unknown table, merge exception) leaves the registry
untouched and reports the failure; on success the joined table is added
under the generated name and becomes active. -/
def runJoin (dm : DataManager) (t1 t2 k1 k2 how ts : String) :
    DataManager × Except String (String × Table) :=
  if t1 = "" ∨ t2 = "" then (dm, .error "Selecione as tabelas.")
  else
    match dm.tables.lookup t1, dm.tables.lookup t2 with
    | some df1, some df2 =>
      match pdMerge df1 df2 k1 k2 how with
      | .ok res =>
        (dm.addTable ("Join_" ++ t1 ++ "_" ++ t2 ++ "_" ++ ts) res,
         .ok ("Join_" ++ t1 ++ "_" ++ t2 ++ "_" ++ ts, res))
      | .error e => (dm, .error e)
    | _, _ => (dm, .error "tabela inexistente")

/-- Model of `run_sql` (lines 1069-1087).  The embedded sqlite evaluator
is an external collaborator, passed as the oracle `sqlEval`; any of its
failures (syntax, missing alias, type mismatch) is the `.error` case and
leaves the registry untouched. -/
def runSql (dm : DataManager) (sqlEval : String → Table → Except String Table)
    (query ts : String) : DataManager × Except String (String × Table) :=
  match dm.getActiveDf with
  | none => (dm, .error "Nenhuma tabela selecionada para SQL.")
  | some df =>
    match sqlEval query df with
    | .ok res => (dm.addTable ("SQL_" ++ ts) res, .ok ("SQL_" ++ ts, res))
    | .error e => (dm, .error e)

/-! Concrete inputs used by witnesses and counterexamples. -/

/-- A three-row numeric table. -/
def tblW : Table := ⟨["a"], [[.num 1], [.num 2], [.num 3]]⟩

/-- A two-row table with a text identifier column and a numeric column. -/
def adfC : Table := ⟨["id", "x"], [[.str "a", .num 1], [.str "b", .num 2]]⟩

def dmC : DataManager := ⟨[("t", adfC)], some "t"⟩

/-- The scoring example table with column `[0, 10, 20]`. -/
def tblR : Table := ⟨["a"], [[.num 0], [.num 10], [.num 20]]⟩

def dmR : DataManager := ⟨[("T", tblR)], some "T"⟩

/-- The scored table produced from `tblR`. -/
def resR : Table :=
  ⟨["a", "Score_Rating"], [[.num 20, .num 100], [.num 10, .num 50], [.num 0, .num 0]]⟩

/-- Two joinable single-column tables. -/
def dmJ : DataManager :=
  ⟨[("L", ⟨["id"], [[.num 1], [.num 2]]⟩), ("R", ⟨["idr"], [[.num 2], [.num 3]]⟩)], some "L"⟩

/-- A query-evaluator oracle that always fails. -/
def sqlFailEval : String → Table → Except String Table :=
  fun _ _ => .error "near SELEC: syntax error"

/-- A query-evaluator oracle that returns the frame unchanged. -/
def sqlOkEval : String → Table → Except String Table := fun _ t => .ok t

/-! Helper lemmas. -/

theorem lookup_updateAssoc (l : List (String × Table)) (n : String) (t : Table) :
    (updateAssoc l n t).lookup n = some t := by
  induction l with
  | nil => simp [updateAssoc, List.lookup]
  | cons p rest ih =>
    obtain ⟨k, v⟩ := p
    by_cases h : k = n
    · simp [updateAssoc, h, List.lookup]
    · have hne : (n == k) = false := by
        simp [beq_iff_eq]
        exact fun hnk => h hnk.symm
      simp [updateAssoc, h, List.lookup, hne]
      exact ih

theorem foldl_min_le_init (c : List ℚ) (a : ℚ) : c.foldl min a ≤ a := by
  induction c generalizing a with
  | nil => simp
  | cons y ys ih => exact le_trans (ih (min a y)) (min_le_left _ _)

theorem le_foldl_max_init (c : List ℚ) (a : ℚ) : a ≤ c.foldl max a := by
  induction c generalizing a with
  | nil => simp
  | cons y ys ih => exact le_trans (le_max_left _ _) (ih (max a y))

theorem foldl_min_le_of_mem {c : List ℚ} {x : ℚ} (hx : x ∈ c) (a : ℚ) :
    c.foldl min a ≤ x := by
  induction c generalizing a with
  | nil => cases hx
  | cons y ys ih =>
    rcases List.mem_cons.1 hx with h | h
    · subst h
      exact le_trans (foldl_min_le_init ys (min a x)) (min_le_right _ _)
    · exact ih h _

theorem le_foldl_max_of_mem {c : List ℚ} {x : ℚ} (hx : x ∈ c) (a : ℚ) :
    x ≤ c.foldl max a := by
  induction c generalizing a with
  | nil => cases hx
  | cons y ys ih =>
    rcases List.mem_cons.1 hx with h | h
    · subst h
      exact le_trans (le_max_right _ _) (le_foldl_max_init ys (max a x))
    · exact ih h _

theorem qminL_le_of_mem {c : List ℚ} {x : ℚ} (hx : x ∈ c) : qminL c ≤ x :=
  foldl_min_le_of_mem hx _

theorem le_qmaxL_of_mem {c : List ℚ} {x : ℚ} (hx : x ∈ c) : x ≤ qmaxL c :=
  le_foldl_max_of_mem hx _

theorem map_getD_range (l : List ℚ) :
    (List.range l.length).map (fun i => l.getD i 0) = l := by
  induction l with
  | nil => simp
  | cons x xs ih =>
    rw [List.length_cons, List.range_succ_eq_map, List.map_cons, List.map_map]
    simp only [List.getD_cons_zero, Function.comp_def, List.getD_cons_succ]
    rw [ih]

instance : IsTotal Row rowGe := ⟨fun a b => le_total (scoreOf b) (scoreOf a)⟩

instance : IsTrans Row rowGe := ⟨fun _ _ _ h1 h2 => le_trans h2 h1⟩

theorem stringAppend_ne_empty (s t : String) (hs : s.data ≠ []) : s ++ t ≠ "" := by
  intro h
  apply hs
  have hd := congrArg String.data h
  rw [String.data_append] at hd
  exact (List.append_eq_nil.1 hd).1

/-! Claim theorems. -/

/-- Claim C10 (confirmed): for every row-filter mode (All, IndexRange,
ValuePredicate, Sample) applied to an empty table, `_apply_row_filter`
returns the table unchanged before any bound, predicate or sample-size
validation, so invalid filter parameters never produce an error on empty
input. -/
theorem claim_c10_empty_input (st : RowFilterState) (entropy : ℕ) (hdr : List String) :
    applyRowFilter st entropy ⟨hdr, []⟩ = some ⟨hdr, []⟩ := by
  simp [applyRowFilter]

/-- Claim C1 (corrected): the Sample row filter uses the fixed seed 42 when
`randomize=true` — not `randomize=false` as claimed — so with
`randomize=true` the drawn row set is independent of the ambient random
state (identical across applications); and whenever the parsed sample size
`n` is at least the row count, the full table is returned unchanged. -/
theorem claim_c1_sample_seed (st : RowFilterState) (e1 e2 : ℕ) (df : Table)
    (hm : st.mode = "sample") :
    (st.sample_random = true → applyRowFilter st e1 df = applyRowFilter st e2 df) ∧
    (∀ n : ℤ, pyInt (orDefault "100" st.sample_n) = some n → (df.rows.length : ℤ) ≤ n →
      applyRowFilter st e1 df = some df) := by
  constructor
  · intro hr
    by_cases he : df.rows = []
    · simp [applyRowFilter, he]
    · cases hp : pyInt (orDefault "100" st.sample_n) with
      | none => simp [applyRowFilter, he, hm, hp]
      | some m => simp [applyRowFilter, he, hm, hp, hr]
  · intro n hp hlen
    by_cases he : df.rows = []
    · simp [applyRowFilter, he]
    · simp [applyRowFilter, he, hm, hp, hlen]

/-- Witness for C1 at a concrete input: with `randomize=true` the draw is
identical for two different ambient random states, and a sample size of 5
on a 3-row table returns the table unchanged. -/
theorem claim_c1_sample_seed_witness :
    applyRowFilter (sampleFilter "5" true) 0 tblW = applyRowFilter (sampleFilter "5" true) 1 tblW ∧
    applyRowFilter (sampleFilter "5" true) 0 tblW = some tblW :=
  ⟨(claim_c1_sample_seed (sampleFilter "5" true) 0 1 tblW rfl).1 rfl,
   (claim_c1_sample_seed (sampleFilter "5" true) 0 1 tblW rfl).2 5 (by decide) (by decide)⟩

/-- Counterexample for C1 as stated: with `randomize=false` the draw
consults the ambient random state (`random_state=None`), so two
applications to the same 2-row table with sample size 1 can select
different row sets. -/
theorem claim_c1_sample_counterexample :
    applyRowFilter (sampleFilter "1" false) 0 ⟨["a"], [[.num 1], [.num 2]]⟩ =
      some ⟨["a"], [[.num 1]]⟩ ∧
    applyRowFilter (sampleFilter "1" false) 1 ⟨["a"], [[.num 1], [.num 2]]⟩ =
      some ⟨["a"], [[.num 2]]⟩ ∧
    applyRowFilter (sampleFilter "1" false) 0 ⟨["a"], [[.num 1], [.num 2]]⟩ ≠
      applyRowFilter (sampleFilter "1" false) 1 ⟨["a"], [[.num 1], [.num 2]]⟩ :=
  ⟨by decide, by decide, by decide⟩

/-- Claim C2 (corrected): on a non-empty table, IndexRange with parsed
integer bounds `0 ≤ a ≤ b ≤ len` yields exactly the positional slice
`[a,b)` of length `b − a`; `to` defaults to the row count when the entry is
empty; a non-integer bound fails (returns the error value `none`); but
`from > to` does NOT fail — it yields the empty slice (Python slice
semantics), contrary to the claim. -/
theorem claim_c2_index_slice (st : RowFilterState) (e : ℕ) (df : Table)
    (hm : st.mode = "index") (hne : df.rows ≠ []) :
    (∀ a b : ℤ, pyInt (orDefault "0" st.index_from) = some a →
      pyInt (orDefault (toString df.rows.length) st.index_to) = some b →
      0 ≤ a → a ≤ b → b ≤ (df.rows.length : ℤ) →
      applyRowFilter st e df = some ⟨df.header, (df.rows.drop a.toNat).take (b - a).toNat⟩ ∧
      ((df.rows.drop a.toNat).take (b - a).toNat).length = (b - a).toNat) ∧
    (pyInt (orDefault "0" st.index_from) = none → applyRowFilter st e df = none) ∧
    (pyInt (orDefault (toString df.rows.length) st.index_to) = none →
      applyRowFilter st e df = none) ∧
    (st.index_to = "" →
      applyRowFilter st e df =
        applyRowFilter ⟨st.mode, st.index_from, toString df.rows.length,
          st.value_col, st.value_op, st.value_val, st.sample_n, st.sample_random⟩ e df) := by
  refine ⟨?_, ?_, ?_, ?_⟩
  · intro a b ha hb h0 hab hbn
    have hsa : sliceIdx df.rows.length a = a.toNat := by
      unfold sliceIdx
      rw [if_neg (by omega)]
      omega
    have hsb : sliceIdx df.rows.length b = b.toNat := by
      unfold sliceIdx
      rw [if_neg (by omega)]
      omega
    have hps : pySlice a b df.rows = (df.rows.drop a.toNat).take (b - a).toNat := by
      unfold pySlice
      rw [hsa, hsb]
      congr 1
      omega
    constructor
    · rw [show applyRowFilter st e df = some ⟨df.header, pySlice a b df.rows⟩ by
        simp [applyRowFilter, hne, hm, ha, hb]]
      rw [hps]
    · rw [List.length_take, List.length_drop]
      omega
  · intro ha
    cases hb : pyInt (orDefault (toString df.rows.length) st.index_to) with
    | none => simp [applyRowFilter, hne, hm, ha, hb]
    | some m => simp [applyRowFilter, hne, hm, ha, hb]
  · intro hb
    cases ha : pyInt (orDefault "0" st.index_from) with
    | none => simp [applyRowFilter, hne, hm, ha, hb]
    | some m => simp [applyRowFilter, hne, hm, ha, hb]
  · intro hto
    simp [applyRowFilter, hne, hm, hto, orDefault]

/-- Witness for C2 at a concrete input: `[1,3)` on the 3-row table yields
the 2-row slice of length `3 − 1`, and a non-integer `to` bound fails. -/
theorem claim_c2_index_slice_witness :
    applyRowFilter (indexFilter "1" "3") 0 tblW =
      some ⟨tblW.header, (tblW.rows.drop (1 : ℤ).toNat).take ((3 : ℤ) - 1).toNat⟩ ∧
    ((tblW.rows.drop (1 : ℤ).toNat).take ((3 : ℤ) - 1).toNat).length = ((3 : ℤ) - 1).toNat ∧
    applyRowFilter (indexFilter "0" "oops") 0 tblW = none :=
  ⟨((claim_c2_index_slice (indexFilter "1" "3") 0 tblW rfl (by decide)).1 1 3 (by decide)
      (by decide) (by decide) (by decide) (by decide)).1,
   ((claim_c2_index_slice (indexFilter "1" "3") 0 tblW rfl (by decide)).1 1 3 (by decide)
      (by decide) (by decide) (by decide) (by decide)).2,
   (claim_c2_index_slice (indexFilter "0" "oops") 0 tblW rfl (by decide)).2.2.1 (by decide)⟩

/-- Counterexample for C2 as stated: `from=2, to=1` (`from > to`) on a
3-row table does not fail with an error — it returns an empty table. -/
theorem claim_c2_index_counterexample :
    applyRowFilter (indexFilter "2" "1") 0 tblW = some ⟨["a"], []⟩ ∧
    applyRowFilter (indexFilter "2" "1") 0 tblW ≠ none :=
  ⟨by decide, by decide⟩

/-- Inversion of a successful scoring run: the produced name, table and
registry are the generated ones. -/
theorem calculateRating_spec {dm : DataManager} {ws : ℚ} {vars : List (String × Bool)}
    {ts name : String} {res : Table} {dm' : DataManager} {df : Table}
    (hdf : dm.getActiveDf = some df)
    (hsucc : calculateRating dm ws vars ts = some (name, res, dm')) :
    name = "Rating_" ++ ts ∧
    res = ratingTable df (checkedCols vars) ∧
    dm' = dm.addTable ("Rating_" ++ ts) res := by
  unfold calculateRating at hsucc
  split at hsucc
  · exact absurd hsucc (by simp)
  next df2 hdf2 =>
    rw [hdf] at hdf2
    injection hdf2 with e
    subst e
    split at hsucc
    · exact absurd hsucc (by simp)
    split at hsucc
    · exact absurd hsucc (by simp)
    split at hsucc
    · exact absurd hsucc (by simp)
    split at hsucc
    · exact absurd hsucc (by simp)
    simp only [Option.some.injEq, Prod.mk.injEq] at hsucc
    obtain ⟨h1, h2, h3⟩ := hsucc
    refine ⟨h1.symm, h2.symm, ?_⟩
    rw [← h3, h2]

/-- Every row the scoring step produces carries a score that is an integer
number of hundredths (the `.round(2)` step). -/
theorem scoreOf_mem_scoredRows {df : Table} {selected : List String} {r : Row}
    (hr : r ∈ scoredRows df selected) :
    ∃ m : ℤ, scoreOf r = (m : ℚ) / 100 := by
  unfold scoredRows at hr
  obtain ⟨p, hp, rfl⟩ := List.mem_map.1 hr
  obtain ⟨s, _, hs2⟩ := List.mem_map.1 (List.of_mem_zip hp).2
  refine ⟨rndHalfEven (s * 100), ?_⟩
  rw [← hs2]
  simp [scoreOf, List.getLast?_concat]
  rfl

/-- Claim C3 (corrected): with an identifier column designated and present
in the active table, exactly three synthetic rows are appended to the
statistics result — the distinct-value count, a stringified first value
and a stringified last value, each replicated across all 7 result
columns — but the three values are computed from the FULL active table's
identifier column (`self.dm.get_active_df()[id_col]`), not from the rows
remaining after the row/column filter pipeline as claimed. -/
theorem claim_c3_id_rows (dm : DataManager) (st : RowFilterState) (e : ℕ)
    (cv : List (String × Bool)) (idv : String) (tbl : StatsTable) (df : Table)
    (idc : String) (adf : Table)
    (hf : getFilteredDfForStats dm st e cv = some df)
    (hrows : df.rows ≠ [])
    (h : runDescStats dm st e cv idv = some tbl)
    (hid : getIdColumn idv = some idc)
    (hadf : dm.getActiveDf = some adf)
    (hmem : idc ∈ adf.header) :
    tbl = df.header.map (fun c => (c, descCells (colNums df c))) ++
      [("ID_Únicos", List.replicate statsHeader.length
          (SCell.num (nuniqueN (columnCells adf idc)))),
       ("ID_Primeiro", List.replicate statsHeader.length
          (SCell.str (firstStr (columnCells adf idc)))),
       ("ID_Último", List.replicate statsHeader.length
          (SCell.str (lastStr (columnCells adf idc))))] ∧
    statsHeader.length = 7 := by
  refine ⟨?_, rfl⟩
  unfold runDescStats at h
  rw [hf, hid, hadf] at h
  simp only [if_neg hrows, if_pos hmem] at h
  exact (Option.some.inj h).symm

/-- Witness for C3 at a concrete input: on a table with id column
`["a","b"]`, numeric column selected, row filter `[1:]`, the three ID rows
carry nunique 2, first "a" and last "b" of the full column. -/
theorem claim_c3_id_rows_witness :
    ([("x", descCells [2]),
      ("ID_Únicos", List.replicate 7 (SCell.num ((2 : ℕ) : ℝ))),
      ("ID_Primeiro", List.replicate 7 (SCell.str "a")),
      ("ID_Último", List.replicate 7 (SCell.str "b"))] : StatsTable) =
      (⟨["x"], [[.num 2]]⟩ : Table).header.map
        (fun c => (c, descCells (colNums ⟨["x"], [[.num 2]]⟩ c))) ++
      [("ID_Únicos", List.replicate statsHeader.length
          (SCell.num (nuniqueN (columnCells adfC "id")))),
       ("ID_Primeiro", List.replicate statsHeader.length
          (SCell.str (firstStr (columnCells adfC "id")))),
       ("ID_Último", List.replicate statsHeader.length
          (SCell.str (lastStr (columnCells adfC "id"))))] ∧
    statsHeader.length = 7 :=
  claim_c3_id_rows dmC (indexFilter "1" "") 0 [("x", true)] "id" _
    ⟨["x"], [[.num 2]]⟩ "id" adfC
    (by with_unfolding_all rfl) (by decide) (by with_unfolding_all rfl)
    (by decide) (by decide) (by decide)

/-- Counterexample for C3 as stated: after the row filter `[1:]` the first
remaining identifier value is "b", but the appended `ID_Primeiro` row
carries "a" — the first value of the unfiltered column. -/
theorem claim_c3_counterexample :
    runDescStats dmC (indexFilter "1" "") 0 [("x", true)] "id" =
      some [("x", descCells [2]),
        ("ID_Únicos", List.replicate 7 (SCell.num ((2 : ℕ) : ℝ))),
        ("ID_Primeiro", List.replicate 7 (SCell.str "a")),
        ("ID_Último", List.replicate 7 (SCell.str "b"))] ∧
    applyRowFilter (indexFilter "1" "") 0 adfC = some ⟨["id", "x"], [[.str "b", .num 2]]⟩ ∧
    firstStr (columnCells ⟨["id", "x"], [[.str "b", .num 2]]⟩ "id") = "b" ∧
    List.replicate 7 (SCell.str "a") ≠ List.replicate 7 (SCell.str "b") := by
  refine ⟨by with_unfolding_all rfl, by decide, by decide, ?_⟩
  simp

/-- Claim C4 (corrected): the per-column descriptive statistics are mean,
median, sample standard deviation (N−1 denominator), min, max, biased
skewness and BIASED (Fisher) excess kurtosis — no bias correction, contrary
to the claim's "bias-corrected".  On `[1,2,3,4,5]`: mean 3, median 3,
std = √(5/2) ≈ 1.5811, min 1, max 5, skewness 0, kurtosis −13/10. -/
theorem claim_c4_descriptive :
    descCells [1, 2, 3, 4, 5] =
      [SCell.num ((3 : ℚ) : ℝ), SCell.num ((3 : ℚ) : ℝ), SCell.num (stdDevR [1, 2, 3, 4, 5]),
       SCell.num ((1 : ℚ) : ℝ), SCell.num ((5 : ℚ) : ℝ), SCell.num (skewR [1, 2, 3, 4, 5]),
       SCell.num ((-13 / 10 : ℚ) : ℝ)] ∧
    stdDevR [1, 2, 3, 4, 5] = Real.sqrt ((5 / 2 : ℚ) : ℝ) ∧
    (1.5811 : ℝ) < stdDevR [1, 2, 3, 4, 5] ∧
    stdDevR [1, 2, 3, 4, 5] < (1.5812 : ℝ) ∧
    skewR [1, 2, 3, 4, 5] = 0 ∧
    qvarSample [1, 2, 3, 4, 5] = 5 / 2 ∧
    qmean [1, 2, 3, 4, 5] = 3 ∧
    qmedian [1, 2, 3, 4, 5] = 3 ∧
    qminL [1, 2, 3, 4, 5] = 1 ∧
    qmaxL [1, 2, 3, 4, 5] = 5 ∧
    kurtQ [1, 2, 3, 4, 5] = -13 / 10 := by
  have hvar : qvarSample [1, 2, 3, 4, 5] = 5 / 2 := by with_unfolding_all rfl
  have hm3 : centralMoment 3 [1, 2, 3, 4, 5] = 0 := by with_unfolding_all rfl
  have hstd : stdDevR [1, 2, 3, 4, 5] = Real.sqrt ((5 / 2 : ℚ) : ℝ) := by
    unfold stdDevR
    rw [hvar]
  have hcast : ((5 / 2 : ℚ) : ℝ) = 5 / 2 := by norm_num
  refine ⟨by with_unfolding_all rfl, hstd, ?_, ?_, ?_, hvar, by with_unfolding_all rfl,
    by with_unfolding_all rfl, by with_unfolding_all rfl, by with_unfolding_all rfl,
    by with_unfolding_all rfl⟩
  · rw [hstd, hcast]
    exact (Real.lt_sqrt (by norm_num)).mpr (by norm_num)
  · rw [hstd, hcast]
    exact (Real.sqrt_lt' (by norm_num)).mpr (by norm_num)
  · unfold skewR
    rw [hm3]
    simp

/-- Counterexample for C4 as stated: on `[1,2,3,4,5]` the kurtosis the
code computes (scipy default, biased: −13/10) differs from the
bias-corrected (Fisher) excess kurtosis named by the claim (−6/5). -/
theorem claim_c4_kurtosis_counterexample :
    kurtQ [1, 2, 3, 4, 5] = -13 / 10 ∧
    kurtBiasCorrected [1, 2, 3, 4, 5] = -6 / 5 ∧
    kurtQ [1, 2, 3, 4, 5] ≠ kurtBiasCorrected [1, 2, 3, 4, 5] := by
  refine ⟨by with_unfolding_all rfl, by with_unfolding_all rfl, ?_⟩
  rw [show kurtQ [1, 2, 3, 4, 5] = -13 / 10 from by with_unfolding_all rfl,
    show kurtBiasCorrected [1, 2, 3, 4, 5] = -6 / 5 from by with_unfolding_all rfl]
  norm_num

/-- Claim C5 (confirmed): a successful scoring run produces the original
columns plus a `Score_Rating` column, sorted descending by score, with
every score an integer number of hundredths (rounded to 2 decimals),
registered as the new active table; the weight-scale input is ignored
(equal weights 1/k always); `[0,10,20]` rescales to `[0,50,100]`; a
constant column rescales to all zeros; missing values are filled with 0. -/
theorem claim_c5_scoring (dm : DataManager) (ws : ℚ) (vars : List (String × Bool))
    (ts name : String) (res : Table) (dm' : DataManager) (df : Table)
    (hdf : dm.getActiveDf = some df)
    (hsucc : calculateRating dm ws vars ts = some (name, res, dm')) :
    res.header = df.header ++ ["Score_Rating"] ∧
    List.Sorted rowGe res.rows ∧
    res.rows.all (fun r => (scoreOf r * 100).den == 1) = true ∧
    dm'.tables.lookup name = some res ∧
    dm'.active = some name ∧
    (∀ w2 : ℚ, calculateRating dm w2 vars ts = some (name, res, dm')) ∧
    minmaxRescale [0, 10, 20] = [0, 50, 100] ∧
    (∀ c : List ℚ, qminL c = qmaxL c → minmaxRescale c = List.replicate c.length 0) ∧
    fillna0 Value.null = 0 := by
  obtain ⟨hname, hres, hdm⟩ := calculateRating_spec hdf hsucc
  refine ⟨?_, ?_, ?_, ?_, ?_, ?_, by with_unfolding_all rfl, ?_, rfl⟩
  · rw [hres]
    rfl
  · rw [hres]
    exact List.sorted_insertionSort rowGe _
  · rw [hres]
    refine List.all_eq_true.2 (fun r hr => ?_)
    have hperm := List.perm_insertionSort rowGe (scoredRows df (checkedCols vars))
    obtain ⟨m, hm⟩ := scoreOf_mem_scoredRows (hperm.mem_iff.1 hr)
    have : (scoreOf r * 100).den = 1 := by
      rw [hm, div_mul_cancel₀ _ (by norm_num : (100 : ℚ) ≠ 0)]
      exact Rat.den_intCast m
    simpa using this
  · rw [hdm, hname]
    exact lookup_updateAssoc _ _ _
  · rw [hdm, hname]
    rfl
  · intro w2
    exact hsucc
  · intro c hc
    have hz : ∀ x ∈ c, (x - qminL c) * 100 / handleZeros (qmaxL c - qminL c) = 0 := by
      intro x hx
      have hx0 : x = qminL c :=
        le_antisymm (hc ▸ le_qmaxL_of_mem hx) (qminL_le_of_mem hx)
      rw [← hx0, sub_self, zero_mul, zero_div]
    unfold minmaxRescale
    refine List.eq_replicate_iff.2 ⟨by simp, fun b hb => ?_⟩
    obtain ⟨x, hx, rfl⟩ := List.mem_map.1 hb
    exact hz x hx

/-- Witness for C5 at a concrete input: scoring the table `[0,10,20]` with
the single selected column produces the sorted, rounded, registered result
`resR`, identically for weight-scale 7. -/
theorem claim_c5_scoring_witness :
    resR.header = tblR.header ++ ["Score_Rating"] ∧
    List.Sorted rowGe resR.rows ∧
    resR.rows.all (fun r => (scoreOf r * 100).den == 1) = true ∧
    (⟨[("T", tblR), ("Rating_x", resR)], some "Rating_x"⟩ : DataManager).tables.lookup
      "Rating_x" = some resR ∧
    (⟨[("T", tblR), ("Rating_x", resR)], some "Rating_x"⟩ : DataManager).active =
      some "Rating_x" ∧
    calculateRating dmR 7 [("a", true)] "x" =
      some ("Rating_x", resR, ⟨[("T", tblR), ("Rating_x", resR)], some "Rating_x"⟩) ∧
    minmaxRescale [0, 10, 20] = [0, 50, 100] ∧
    minmaxRescale [4, 4] = List.replicate ([4, 4] : List ℚ).length 0 ∧
    fillna0 Value.null = 0 := by
  have h := claim_c5_scoring dmR 1 [("a", true)] "x" "Rating_x" resR
    ⟨[("T", tblR), ("Rating_x", resR)], some "Rating_x"⟩ tblR
    (by decide) (by with_unfolding_all rfl)
  exact ⟨h.1, h.2.1, h.2.2.1, h.2.2.2.1, h.2.2.2.2.1, h.2.2.2.2.2.1 7, h.2.2.2.2.2.2.1,
    h.2.2.2.2.2.2.2.1 [4, 4] (by with_unfolding_all rfl), h.2.2.2.2.2.2.2.2⟩

/-- Claim C6 (confirmed): for `k ≥ 1` identical equal-weighted copies of a
column, the composite score of each row equals the min-max-rescaled value
of the single column at that row; in particular over the column's own
length the score list is exactly the rescaled column. -/
theorem claim_c6_identical_columns (k : ℕ) (c : List ℚ) (n : ℕ) (hk : 1 ≤ k) :
    computeScores (List.replicate k (minmaxRescale c)) n =
      (List.range n).map (fun i => (minmaxRescale c).getD i 0) ∧
    computeScores (List.replicate k (minmaxRescale c)) c.length = minmaxRescale c := by
  have hk0 : (k : ℚ) ≠ 0 := Nat.cast_ne_zero.2 (by omega)
  have key : ∀ m : ℕ, computeScores (List.replicate k (minmaxRescale c)) m =
      (List.range m).map (fun i => (minmaxRescale c).getD i 0) := by
    intro m
    unfold computeScores
    refine List.map_congr_left (fun i _ => ?_)
    rw [List.map_replicate, List.sum_replicate, List.length_replicate, nsmul_eq_mul]
    exact mul_div_cancel_left₀ _ hk0
  refine ⟨key n, ?_⟩
  rw [key c.length]
  have hlen : (minmaxRescale c).length = c.length := by simp [minmaxRescale]
  rw [← hlen]
  exact map_getD_range _

/-- Witness for C6 at a concrete input: two identical copies of the
rescaled column `[0,10,20]`. -/
theorem claim_c6_identical_columns_witness :
    computeScores (List.replicate 2 (minmaxRescale [0, 10, 20])) 3 =
      (List.range 3).map (fun i => (minmaxRescale [0, 10, 20]).getD i 0) ∧
    computeScores (List.replicate 2 (minmaxRescale [0, 10, 20]))
      ([0, 10, 20] : List ℚ).length = minmaxRescale [0, 10, 20] :=
  claim_c6_identical_columns 2 [0, 10, 20] 3 (by decide)

/-- Claim C7 (confirmed): the statistics pipeline applies the row filter to
the full active table first, then projects onto the selected columns that
are present, then drops exactly the rows containing a null among those
projected cells; an explicitly empty column selection fails (EmptySelection,
modelled by `none`). -/
theorem claim_c7_pipeline (dm : DataManager) (st : RowFilterState) (e : ℕ)
    (cv : List (String × Bool)) (df dff : Table)
    (hdf : dm.getActiveDf = some df)
    (hrf : applyRowFilter st e df = some dff)
    (hne : dff.rows ≠ [])
    (hcv : cv ≠ []) :
    (checkedCols cv = [] → getFilteredDfForStats dm st e cv = none) ∧
    ((checkedCols cv).filter (fun c => dff.header.contains c) ≠ [] →
      getFilteredDfForStats dm st e cv =
        some (dropna (project ((checkedCols cv).filter
          (fun c => dff.header.contains c)) dff))) ∧
    (∀ names : List String, ∀ t : Table,
      (dropna (project names t)).rows =
        (t.rows.map (fun r => names.map (fun c =>
           match colIndex t c with
           | some j => r.getD j .null
           | none => Value.null))).filter (fun pr => pr.all (fun v => v != Value.null))) := by
  refine ⟨fun hsel => ?_, fun havail => ?_, fun names t => rfl⟩
  · unfold getFilteredDfForStats
    rw [hdf]
    simp only [hrf, if_neg hne, if_neg hcv, if_pos hsel]
  · have hsel : ¬(checkedCols cv = []) := by
      intro h
      rw [h] at havail
      exact havail rfl
    unfold getFilteredDfForStats
    rw [hdf]
    simp only [hrf, if_neg hne, if_neg hcv, if_neg hsel, if_neg havail]

/-- Witness for C7 at a concrete input: the all-unchecked selection fails
and the checked selection yields project-then-dropna of the filtered table. -/
theorem claim_c7_pipeline_witness :
    getFilteredDfForStats dmC allFilter 0 [("x", false)] = none ∧
    getFilteredDfForStats dmC allFilter 0 [("x", true)] =
      some (dropna (project ((checkedCols [("x", true)]).filter
        (fun c => adfC.header.contains c)) adfC)) ∧
    (dropna (project ["x"] adfC)).rows =
      (adfC.rows.map (fun r => (["x"] : List String).map (fun c =>
         match colIndex adfC c with
         | some j => r.getD j .null
         | none => Value.null))).filter (fun pr => pr.all (fun v => v != Value.null)) :=
  ⟨(claim_c7_pipeline dmC allFilter 0 [("x", false)] adfC adfC (by decide) (by decide)
      (by decide) (by decide)).1 (by decide),
   (claim_c7_pipeline dmC allFilter 0 [("x", true)] adfC adfC (by decide) (by decide)
      (by decide) (by decide)).2.1 (by decide),
   (claim_c7_pipeline dmC allFilter 0 [("x", true)] adfC adfC (by decide) (by decide)
      (by decide) (by decide)).2.2 ["x"] adfC⟩

/-- Claim C8 (confirmed): whenever a join or query run reports a failure,
the registry — the table map and the active pointer — is exactly what it
was before the operation. -/
theorem claim_c8_failure_unchanged (dm : DataManager) (t1 t2 k1 k2 how ts : String)
    (sqlEval : String → Table → Except String Table) (q ts2 err1 err2 : String) :
    ((runJoin dm t1 t2 k1 k2 how ts).2 = .error err1 →
      (runJoin dm t1 t2 k1 k2 how ts).1 = dm) ∧
    ((runSql dm sqlEval q ts2).2 = .error err2 → (runSql dm sqlEval q ts2).1 = dm) := by
  constructor
  · by_cases h0 : t1 = "" ∨ t2 = ""
    · simp [runJoin, h0]
    · cases l1 : dm.tables.lookup t1 with
      | none =>
        cases l2 : dm.tables.lookup t2 with
        | none => simp [runJoin, h0, l1, l2]
        | some df2 => simp [runJoin, h0, l1, l2]
      | some df1 =>
        cases l2 : dm.tables.lookup t2 with
        | none => simp [runJoin, h0, l1, l2]
        | some df2 =>
          cases m : pdMerge df1 df2 k1 k2 how with
          | ok r => simp [runJoin, h0, l1, l2, m]
          | error er => simp [runJoin, h0, l1, l2, m]
  · cases a : dm.getActiveDf with
    | none => simp [runSql, a]
    | some df =>
      cases s : sqlEval q df with
      | ok r => simp [runSql, a, s]
      | error er => simp [runSql, a, s]

/-- Witness for C8 at concrete inputs: a join with a missing key column
and a query whose evaluator reports a syntax error both leave the
registry `dmJ` unchanged. -/
theorem claim_c8_failure_unchanged_witness :
    (runJoin dmJ "L" "R" "missing" "idr" "inner" "ts").1 = dmJ ∧
    (runSql dmJ sqlFailEval "SELECT * FROM data" "ts").1 = dmJ :=
  ⟨(claim_c8_failure_unchanged dmJ "L" "R" "missing" "idr" "inner" "ts" sqlFailEval
      "SELECT * FROM data" "ts" "KeyError: missing" "near SELEC: syntax error").1 rfl,
   (claim_c8_failure_unchanged dmJ "L" "R" "missing" "idr" "inner" "ts" sqlFailEval
      "SELECT * FROM data" "ts" "KeyError: missing" "near SELEC: syntax error").2 rfl⟩

theorem stringAppend_data_ne (s t : String) (hs : s.data ≠ []) : (s ++ t).data ≠ [] := by
  rw [String.data_append]
  intro h
  exact hs (List.append_eq_nil.1 h).1

/-- After `add_table` with a non-empty name, the new name is active, maps
to the inserted table, and is what `get_active_df` returns. -/
theorem addTable_active_facts (dm : DataManager) (name : String) (res : Table)
    (hname : name ≠ "") :
    (dm.addTable name res).active = some name ∧
    (dm.addTable name res).tables.lookup name = some res ∧
    (dm.addTable name res).getActiveDf = some res := by
  refine ⟨rfl, lookup_updateAssoc _ _ _, ?_⟩
  unfold DataManager.getActiveDf DataManager.addTable
  simp only [if_neg hname]
  exact lookup_updateAssoc _ _ _

/-- Inversion of a successful scoring run, without assuming the active
table: the produced registry is `add_table` of the generated name. -/
theorem calculateRating_registry {dm : DataManager} {ws : ℚ} {vars : List (String × Bool)}
    {ts name : String} {res : Table} {dm' : DataManager}
    (hsucc : calculateRating dm ws vars ts = some (name, res, dm')) :
    name = "Rating_" ++ ts ∧ dm' = dm.addTable name res := by
  unfold calculateRating at hsucc
  split at hsucc
  · exact absurd hsucc (by simp)
  next df2 hdf2 =>
    split at hsucc
    · exact absurd hsucc (by simp)
    split at hsucc
    · exact absurd hsucc (by simp)
    split at hsucc
    · exact absurd hsucc (by simp)
    split at hsucc
    · exact absurd hsucc (by simp)
    simp only [Option.some.injEq, Prod.mk.injEq] at hsucc
    obtain ⟨h1, h2, h3⟩ := hsucc
    refine ⟨h1.symm, ?_⟩
    rw [← h3, ← h1, h2]

/-- Inversion of a successful join: the produced registry is `add_table`
of the generated name. -/
theorem runJoin_registry {dm : DataManager} {t1 t2 k1 k2 how ts name : String}
    {res : Table} {dm' : DataManager}
    (h : runJoin dm t1 t2 k1 k2 how ts = (dm', .ok (name, res))) :
    name = "Join_" ++ t1 ++ "_" ++ t2 ++ "_" ++ ts ∧ dm' = dm.addTable name res := by
  unfold runJoin at h
  split at h
  · exact absurd h (by simp)
  split at h
  next df1 df2 l1 l2 =>
    cases m : pdMerge df1 df2 k1 k2 how with
    | ok r =>
      rw [m] at h
      simp only [Prod.mk.injEq, Except.ok.injEq] at h
      obtain ⟨h1, h2, h3⟩ := h
      refine ⟨h2.symm, ?_⟩
      rw [← h1, h2, h3]
    | error er =>
      rw [m] at h
      exact absurd h (by simp)
  next => exact absurd h (by simp)

/-- Inversion of a successful query run: the produced registry is
`add_table` of the generated name. -/
theorem runSql_registry {dm : DataManager} {sqlEval : String → Table → Except String Table}
    {q ts name : String} {res : Table} {dm' : DataManager}
    (h : runSql dm sqlEval q ts = (dm', .ok (name, res))) :
    name = "SQL_" ++ ts ∧ dm' = dm.addTable name res := by
  unfold runSql at h
  split at h
  · exact absurd h (by simp)
  next df hdf =>
    cases s : sqlEval q df with
    | ok r =>
      rw [s] at h
      simp only [Prod.mk.injEq, Except.ok.injEq] at h
      obtain ⟨h1, h2, h3⟩ := h
      refine ⟨h2.symm, ?_⟩
      rw [← h1, h2, h3]
    | error er =>
      rw [s] at h
      exact absurd h (by simp)

/-- Claim C9 (confirmed): each successful derived-table operation
(scoring, join, query) inserts the result under its generated name, makes
it the active table, and the active reference then names an existing
registry entry (the result itself). -/
theorem claim_c9_derived_active (dm : DataManager) (ws : ℚ) (vars : List (String × Bool))
    (ts t1 t2 k1 k2 how ts2 q ts3 : String)
    (sqlEval : String → Table → Except String Table)
    (name1 name2 name3 : String) (res1 res2 res3 : Table) (dm1 dm2 dm3 : DataManager) :
    (calculateRating dm ws vars ts = some (name1, res1, dm1) →
      dm1.active = some name1 ∧ dm1.tables.lookup name1 = some res1 ∧
      dm1.getActiveDf = some res1) ∧
    (runJoin dm t1 t2 k1 k2 how ts2 = (dm2, .ok (name2, res2)) →
      dm2.active = some name2 ∧ dm2.tables.lookup name2 = some res2 ∧
      dm2.getActiveDf = some res2) ∧
    (runSql dm sqlEval q ts3 = (dm3, .ok (name3, res3)) →
      dm3.active = some name3 ∧ dm3.tables.lookup name3 = some res3 ∧
      dm3.getActiveDf = some res3) := by
  refine ⟨fun h => ?_, fun h => ?_, fun h => ?_⟩
  · obtain ⟨hn, hdm⟩ := calculateRating_registry h
    subst hdm
    exact addTable_active_facts dm name1 res1
      (by rw [hn]; exact stringAppend_ne_empty _ _ (by decide))
  · obtain ⟨hn, hdm⟩ := runJoin_registry h
    subst hdm
    refine addTable_active_facts dm name2 res2 ?_
    rw [hn]
    exact stringAppend_ne_empty _ _
      (stringAppend_data_ne _ _ (stringAppend_data_ne _ _
        (stringAppend_data_ne _ _ (stringAppend_data_ne _ _ (by decide)))))
  · obtain ⟨hn, hdm⟩ := runSql_registry h
    subst hdm
    exact addTable_active_facts dm name3 res3
      (by rw [hn]; exact stringAppend_ne_empty _ _ (by decide))

/-- Witness for C9 at concrete inputs: a successful scoring run on `dmR`,
and a successful inner join and query run on `dmJ`, each register the
result under the generated name and make it active. -/
theorem claim_c9_derived_active_witness :
    ((⟨[("T", tblR), ("Rating_x", resR)], some "Rating_x"⟩ : DataManager).active =
        some "Rating_x" ∧
      (⟨[("T", tblR), ("Rating_x", resR)], some "Rating_x"⟩ : DataManager).tables.lookup
        "Rating_x" = some resR ∧
      (⟨[("T", tblR), ("Rating_x", resR)], some "Rating_x"⟩ : DataManager).getActiveDf =
        some resR) ∧
    ((⟨[("L", ⟨["id"], [[.num 1], [.num 2]]⟩), ("R", ⟨["idr"], [[.num 2], [.num 3]]⟩),
        ("Join_L_R_ts", ⟨["id", "idr"], [[.num 2, .num 2]]⟩)], some "Join_L_R_ts"⟩ :
        DataManager).active = some "Join_L_R_ts" ∧
      (⟨[("L", ⟨["id"], [[.num 1], [.num 2]]⟩), ("R", ⟨["idr"], [[.num 2], [.num 3]]⟩),
        ("Join_L_R_ts", ⟨["id", "idr"], [[.num 2, .num 2]]⟩)], some "Join_L_R_ts"⟩ :
        DataManager).tables.lookup "Join_L_R_ts" = some ⟨["id", "idr"], [[.num 2, .num 2]]⟩ ∧
      (⟨[("L", ⟨["id"], [[.num 1], [.num 2]]⟩), ("R", ⟨["idr"], [[.num 2], [.num 3]]⟩),
        ("Join_L_R_ts", ⟨["id", "idr"], [[.num 2, .num 2]]⟩)], some "Join_L_R_ts"⟩ :
        DataManager).getActiveDf = some ⟨["id", "idr"], [[.num 2, .num 2]]⟩) ∧
    ((⟨[("L", ⟨["id"], [[.num 1], [.num 2]]⟩), ("R", ⟨["idr"], [[.num 2], [.num 3]]⟩),
        ("SQL_z", ⟨["id"], [[.num 1], [.num 2]]⟩)], some "SQL_z"⟩ :
        DataManager).active = some "SQL_z" ∧
      (⟨[("L", ⟨["id"], [[.num 1], [.num 2]]⟩), ("R", ⟨["idr"], [[.num 2], [.num 3]]⟩),
        ("SQL_z", ⟨["id"], [[.num 1], [.num 2]]⟩)], some "SQL_z"⟩ :
        DataManager).tables.lookup "SQL_z" = some ⟨["id"], [[.num 1], [.num 2]]⟩ ∧
      (⟨[("L", ⟨["id"], [[.num 1], [.num 2]]⟩), ("R", ⟨["idr"], [[.num 2], [.num 3]]⟩),
        ("SQL_z", ⟨["id"], [[.num 1], [.num 2]]⟩)], some "SQL_z"⟩ :
        DataManager).getActiveDf = some ⟨["id"], [[.num 1], [.num 2]]⟩) :=
  ⟨(claim_c9_derived_active dmR 1 [("a", true)] "x" "" "" "" "" "" "" "" "" sqlOkEval
      "Rating_x" "" "" resR ⟨[], []⟩ ⟨[], []⟩
      ⟨[("T", tblR), ("Rating_x", resR)], some "Rating_x"⟩ ⟨[], none⟩ ⟨[], none⟩).1
      (by with_unfolding_all rfl),
   (claim_c9_derived_active dmJ 1 [] "" "L" "R" "id" "idr" "inner" "ts" "" "" sqlOkEval
      "" "Join_L_R_ts" "" ⟨[], []⟩ ⟨["id", "idr"], [[.num 2, .num 2]]⟩ ⟨[], []⟩ ⟨[], none⟩
      ⟨[("L", ⟨["id"], [[.num 1], [.num 2]]⟩), ("R", ⟨["idr"], [[.num 2], [.num 3]]⟩),
        ("Join_L_R_ts", ⟨["id", "idr"], [[.num 2, .num 2]]⟩)], some "Join_L_R_ts"⟩
      ⟨[], none⟩).2.1 (by with_unfolding_all rfl),
   (claim_c9_derived_active dmJ 1 [] "" "" "" "" "" "" "" "q" "z" sqlOkEval
      "" "" "SQL_z" ⟨[], []⟩ ⟨[], []⟩ ⟨["id"], [[.num 1], [.num 2]]⟩ ⟨[], none⟩ ⟨[], none⟩
      ⟨[("L", ⟨["id"], [[.num 1], [.num 2]]⟩), ("R", ⟨["idr"], [[.num 2], [.num 3]]⟩),
        ("SQL_z", ⟨["id"], [[.num 1], [.num 2]]⟩)], some "SQL_z"⟩).2.2
      (by with_unfolding_all rfl)⟩
